import Mathlib

/-!
Shallow embedding of the ticket-analysis tool (src/main.py).

The program ingests a multi-sheet Excel workbook of support tickets into a
single SQLite table and offers a local TF-IDF/k-means analysis and a remote
OpenAI-based analysis.  External collaborators (pandas `read_excel`,
`json.loads`, the TF-IDF vectorizer, k-means, and the OpenAI API call) are
taken as parameters of the embedded functions; the data-shaping logic of the
repository itself is embedded directly.

A stored or spreadsheet row is an association list from column names to
cells; a cell is `Option String`, `none` standing for a null/NaN value.
-/

set_option autoImplicit false

namespace TicketAnalysis

/-- A row: association list from column name to cell value (`none` = null). -/
abbrev Row := List (String × Option String)

/-- A pandas DataFrame, reduced to its column list and its rows. -/
structure DataFrame where
  columns : List String
  rows : List Row
  deriving DecidableEq

/-- The four expected sheet names (src/main.py line 60). -/
def sheets : List String := ["硬件工单", "系统工单", "服务工单", "网络工单"]

/-- The fixed source-header to normalized-field mapping
(src/main.py lines 62-74, `columns_map`). -/
def columns_map : List (String × String) :=
  [("工单编号(Ticket NO)", "ticket_no"),
   ("工单状态(Ticket Status)", "ticket_status"),
   ("工单类型(Ticket Type)", "ticket_type"),
   ("ISU项目名称(Project Name)", "project_name"),
   ("标题(Title)", "title"),
   ("工单描述(Description)", "description"),
   ("处理方法(Resolve Method)", "resolve_method"),
   ("事件等级(Level)", "level"),
   ("响应时长(Response SLA)", "response_sla"),
   ("处理时长(Process Duration)", "process_duration"),
   ("完成时长(Complete duration)", "complete_duration")]

/-- `df.rename(columns=columns_map)` applied to one column name. -/
def rename_col (c : String) : String :=
  (columns_map.lookup c).getD c

/-- `available_cols = [col for col in columns_map.keys() if col in df.columns]`
(src/main.py line 79). -/
def available_cols (df : DataFrame) : List String :=
  (columns_map.map Prod.fst).filter (fun c => df.columns.contains c)

/-- One row after `df[available_cols]`, `df.rename(columns=columns_map)` and
`df["category"] = sheet_name` (src/main.py lines 80-82): keep only the
available mapped columns, rename them, and append the category cell. -/
def process_row (cols : List String) (sheet_name : String) (row : Row) : Row :=
  (cols.filterMap (fun c => (row.lookup c).map (fun v => (rename_col c, v))))
    ++ [("category", some sheet_name)]

/-- The DataFrame appended to `data_list` for one successfully read sheet
(src/main.py lines 78-83). -/
def process_sheet (sheet_name : String) (df : DataFrame) : DataFrame :=
  ⟨(available_cols df).map rename_col ++ ["category"],
   df.rows.map (process_row (available_cols df) sheet_name)⟩

/-- `data_list` (src/main.py lines 75-85): reading the workbook is external
(pandas), so it enters as `read_excel`, mapping a sheet name to either the
sheet's DataFrame or the message of the exception raised while reading it.
A sheet that raises is skipped. -/
def sheet_frames (read_excel : String → Except String DataFrame) : List DataFrame :=
  sheets.filterMap (fun s =>
    match read_excel s with
    | .ok df => some (process_sheet s df)
    | .error _ => none)

/-- Which dialog `load_and_store_data` shows at the end: `showinfo` on
success (line 92) or `showerror` on failure (line 94). -/
inductive LoadResult where
  | success
  | failure
  deriving DecidableEq

/-- `load_and_store_data` (src/main.py lines 55-94).  The SQLite `tickets`
table is the explicit state `db`; `pd.concat` followed by `to_sql(...,
if_exists="append")` appends the concatenated rows.  Returns the new table
contents and the dialog shown. -/
def load_and_store_data (read_excel : String → Except String DataFrame)
    (db : List Row) : List Row × LoadResult :=
  let data_list := sheet_frames read_excel
  if data_list.isEmpty then
    (db, .failure)
  else
    (db ++ (data_list.map DataFrame.rows).flatten, .success)

/-- `is_ok` of a sheet read: whether `pd.read_excel` returned without raising. -/
def read_ok (r : Except String DataFrame) : Bool :=
  match r with
  | .ok _ => true
  | .error _ => false

/-! ## Local analysis (`analyze_data`, src/main.py lines 96-164) -/

/-- Reading the cell of a stored row for a fixed schema column: the SQLite
table always has the column, so a missing key and a null cell both read as
null (pandas NaN). -/
def get_cell (r : Row) (k : String) : Option String :=
  (r.lookup k).bind id

/-- First-occurrence deduplication, seen-list based. -/
def uniq_from {α : Type} [DecidableEq α] (seen : List α) : List α → List α
  | [] => []
  | x :: xs => if x ∈ seen then uniq_from seen xs else x :: uniq_from (x :: seen) xs

/-- `Series.value_counts()`: each distinct value with its multiplicity.
(pandas orders by descending count; no claim depends on the order, so
first-occurrence order is used here.) -/
def value_counts {α : Type} [DecidableEq α] (l : List α) : List (α × Nat) :=
  (uniq_from [] l).map (fun v => (v, l.count v))

/-- `df["category"].value_counts()` (src/main.py line 112): `value_counts`
drops nulls. -/
def category_counts (db : List Row) : List (String × Nat) :=
  value_counts (db.filterMap (fun r => get_cell r "category"))

/-- `df['combined_text'] = df['title'].fillna('') + " " + df['description'].fillna('')`
(src/main.py line 124), for one row. -/
def combined_text (r : Row) : String :=
  (get_cell r "title").getD "" ++ " " ++ (get_cell r "description").getD ""

/-- The claim's version of the combined text (C7's words): "the concatenation
of the record's title and description fields, with a null title or null
description treated as the empty string". -/
def combined_text_claim (r : Row) : String :=
  (get_cell r "title").getD "" ++ (get_cell r "description").getD ""

/-- The amended claim's version: title, a single space separator, then
description, nulls treated as the empty string. -/
def combined_text_amended (r : Row) : String :=
  (get_cell r "title").getD "" ++ " " ++ (get_cell r "description").getD ""

/-- The second panel of the local dashboard: either the cluster population
counts (`df['Cluster'].value_counts()`, bar chart and summary lines,
src/main.py lines 131-139 and 158-160) or the skipped-clustering texts
("Not enough text data for clustering" / "Clustering not performed.",
lines 140-142 and 161-162). -/
inductive ClusterPanel where
  | counts (cs : List (Nat × Nat))
  | skipped

/-- The dashboard window produced by a successful local analysis: the
per-category bar chart and summary lines, the total ticket count, and the
cluster panel. -/
structure LocalDashboard where
  cat_counts : List (String × Nat)
  total : Nat
  clusters : ClusterPanel

/-- Outcome of `analyze_data`: either the `showerror` dialog (line 108,
followed by `return`) or a dashboard window. -/
inductive LocalResult where
  | errorDialog (msg : String)
  | dashboard (d : LocalDashboard)

/-- `analyze_data` (src/main.py lines 96-164).  The TF-IDF vectorizer and
k-means are external (scikit-learn): `vectorize` returns `none` when
`fit_transform` raises (e.g. empty vocabulary), otherwise a matrix of type
`M` with `nrows` rows; `kmeans` returns the cluster assignment list.
Clustering runs only when `X is not None and X.shape[0] > 0` (line 131).
The function only reads the table, so the state component is returned
unchanged. -/
def analyze_data {M : Type} (vectorize : List String → Option M)
    (nrows : M → Nat) (kmeans : M → List Nat) (db : List Row) :
    List Row × LocalResult :=
  if db.isEmpty then
    (db, .errorDialog "No data available for analysis.")
  else
    let panel :=
      match vectorize (db.map combined_text) with
      | none => ClusterPanel.skipped
      | some X =>
          if nrows X > 0 then ClusterPanel.counts (value_counts (kmeans X))
          else ClusterPanel.skipped
    (db, .dashboard ⟨category_counts db, db.length, panel⟩)

/-! ## Remote analysis (`analyze_with_openai`, src/main.py lines 166-255) -/

/-- A Python value produced by `json.loads` (numbers reduced to integers;
no claim involves fractional numbers). -/
inductive PyJson where
  | null
  | bool (b : Bool)
  | num (n : Int)
  | str (s : String)
  | arr (elems : List PyJson)
  | obj (fields : List (String × PyJson))

/-- Python truthiness of such a value (`if categories:`, line 233). -/
def py_truthy : PyJson → Bool
  | .null => false
  | .bool b => b
  | .num n => n != 0
  | .str s => !s.isEmpty
  | .arr xs => !xs.isEmpty
  | .obj kvs => !kvs.isEmpty

/-- How Python renders a cell inside an f-string: a SQL NULL comes back as
NaN and prints as "nan". -/
def cell_repr : Option String → String
  | none => "nan"
  | some s => s

/-- One element of `sample_texts` (src/main.py lines 182-186). -/
def ticket_sample_text (r : Row) : String :=
  "Ticket Number: " ++ cell_repr (get_cell r "ticket_no") ++ "\n" ++
  "Title: " ++ cell_repr (get_cell r "title") ++ "\n" ++
  "Description: " ++ cell_repr (get_cell r "description")

/-- `str.join` with a separator. -/
def join_sep (sep : String) : List String → String
  | [] => ""
  | [x] => x
  | x :: y :: xs => x ++ sep ++ join_sep sep (y :: xs)

/-- The prompt sent to the API (src/main.py lines 187-207): the fixed
instruction text followed by the first ten formatted records. -/
def openai_prompt (db : List Row) : String :=
  let text_sample := join_sep "\n\n" ((db.map ticket_sample_text).take 10)
  "You are an expert in support ticket analysis. Below is a sample of support ticket data. " ++
  "Each record includes a unique ticket number, title, and description. Your task is to analyze the text and correlate " ++
  "the tickets by identifying the main issue types and any mentions of specific workstations or robots. Use the ticket " ++
  "numbers to precisely count how many tickets are correlated with each other.\n\n" ++
  "Please group the tickets into distinct categories based on these criteria and count the number of tickets in each category. " ++
  "Also, provide a brief summary of the key findings and recommendations for reducing ticket numbers. \n\n" ++
  "Return your answer as a valid JSON object with the following structure:\n\n" ++
  "\x7b\n" ++
  "  \"categories\": \x7b\n" ++
  "      \"<Category Name>\": <Count>,\n" ++
  "      \"...\": ...\n" ++
  "  \x7d,\n" ++
  "  \"summary\": \"<A short summary of your findings and recommendations>\"\n" ++
  "\x7d\n\n" ++
  "Here is the sample data:\n" ++
  text_sample

/-- The result window of the remote analysis: the `categories` value, the
bar chart (rendered from `categories` when it is truthy, line 233-245;
otherwise the red "No valid category data" label), and the summary shown in
the text widget. -/
structure RemoteWindow where
  categories : PyJson
  chart : Option PyJson
  summary : PyJson

/-- Outcome of `analyze_with_openai`: either the `showerror` dialog
(line 178, followed by `return`) or the analysis window. -/
inductive RemoteResult where
  | errorDialog (msg : String)
  | window (w : RemoteWindow)

/-- The `try: analysis_data = json.loads(...); ... except:` block
(src/main.py lines 220-227).  `json_loads` is the external parser, `none`
when `json.loads` raises.  `.get` is only valid on a dict: any other parsed
value raises inside the `try` and lands in the `except` branch, hence
`none` here too. -/
def parse_analysis (json_loads : String → Option PyJson) (s : String) :
    Option (PyJson × PyJson) :=
  match json_loads s with
  | some (PyJson.obj kvs) =>
      some ((kvs.lookup "categories").getD (PyJson.obj []),
            (kvs.lookup "summary").getD (PyJson.str "No summary provided."))
  | _ => none

/-- `analyze_with_openai` (src/main.py lines 166-255).  The single API call
is external: `api_call` maps the prompt to either the reply content or the
message of the exception raised by the call.  The function only reads the
table, so the state component is returned unchanged. -/
def analyze_with_openai (json_loads : String → Option PyJson)
    (api_call : String → Except String String) (db : List Row) :
    List Row × RemoteResult :=
  if db.isEmpty then
    (db, .errorDialog "No data available for OpenAI analysis.")
  else
    let analysis_response :=
      match api_call (openai_prompt db) with
      | .ok content => content
      | .error e => "Error in OpenAI API call: " ++ e
    let cs :=
      match parse_analysis json_loads analysis_response with
      | some p => p
      | none => (PyJson.obj [], PyJson.str analysis_response)
    let chart := if py_truthy cs.1 then some cs.1 else none
    (db, .window ⟨cs.1, chart, cs.2⟩)

/-- The leading characters with which a text accepted by Python's
`json.loads` can begin (object, array, string, number, `true`, `false`,
`null`, `NaN`, `Infinity`, `-Infinity`), after JSON whitespace. -/
def json_lead (c : Char) : Bool :=
  c = Char.ofNat 123 || c = '[' || c = '"' || c = '-' || c.isDigit ||
  c = 't' || c = 'f' || c = 'n' || c = 'N' || c = 'I'

/-- JSON whitespace. -/
def json_ws (c : Char) : Bool :=
  c = ' ' || c = '\t' || c = '\n' || c = '\r'

/-- Whether a string starts (after JSON whitespace) with a character that
can begin a JSON document.  Any sound model of `json.loads` returns `none`
on a string for which this is false. -/
def json_can_start (s : String) : Bool :=
  match s.data.dropWhile json_ws with
  | [] => false
  | c :: _ => json_lead c

/-- The invariant of C9: a row carries one of the four sheet names as its
category. -/
def category_inv (r : Row) : Prop :=
  ∃ c ∈ sheets, r.lookup "category" = some c

/-- The `categories` value of a remote-analysis window. -/
def RemoteResult.categories_of : RemoteResult → Option PyJson
  | .window w => some w.categories
  | .errorDialog _ => none

/-- The chart of a remote-analysis window (`some none` = window shown with
no chart). -/
def RemoteResult.chart_of : RemoteResult → Option (Option PyJson)
  | .window w => some w.chart
  | .errorDialog _ => none

/-- The summary of a remote-analysis window. -/
def RemoteResult.summary_of : RemoteResult → Option PyJson
  | .window w => some w.summary
  | .errorDialog _ => none

/-! ## Concrete fixtures used by the witnesses -/

/-- A one-row sheet with a title column. -/
def df_w : DataFrame := ⟨["标题(Title)"], [[("标题(Title)", some "t")]]⟩

/-- A workbook in which every expected sheet reads as `df_w`. -/
def re_w : String → Except String DataFrame := fun _ => .ok df_w

/-- The per-sheet DataFrames of `re_w`. -/
def dfs_w : String → DataFrame := fun _ => df_w

/-- A workbook in which every sheet read raises. -/
def re_fail : String → Except String DataFrame := fun _ => .error "boom"

/-- A present, readable, zero-row sheet. -/
def df_empty : DataFrame := ⟨["标题(Title)"], []⟩

/-- A workbook in which every expected sheet reads as `df_empty`. -/
def re_empty : String → Except String DataFrame := fun _ => .ok df_empty

/-- A one-row stored table. -/
def db_w : List Row :=
  [[("category", some "硬件工单"), ("title", some "t"), ("description", none)]]

/-- A `json.loads` model that always raises. -/
def jl_none : String → Option PyJson := fun _ => none

/-- A `json.loads` model that always returns the empty dict. -/
def jl_obj : String → Option PyJson := fun _ => some (.obj [])

/-- An API call that always returns a non-JSON reply. -/
def api_ok_w : String → Except String String := fun _ => .ok "not json"

/-- An API call that always raises. -/
def api_err_w : String → Except String String := fun _ => .error "boom"

/-! ## Lemmas about the ingestion pipeline -/

lemma rename_ne_category : ∀ c ∈ columns_map.map Prod.fst, rename_col c ≠ "category" := by
  decide

lemma available_cols_sub (df : DataFrame) :
    ∀ c ∈ available_cols df, c ∈ columns_map.map Prod.fst := by
  intro c hc
  exact (List.mem_filter.mp hc).1

lemma lookup_keys_ne {β : Type} (l : List (String × β)) (k : String) (v : β)
    (h : ∀ p ∈ l, p.1 ≠ k) : (l ++ [(k, v)]).lookup k = some v := by
  induction l with
  | nil => simp [List.lookup]
  | cons p ps ih =>
      obtain ⟨a, b⟩ := p
      have ha : a ≠ k := h (a, b) (by simp)
      have hk : (k == a) = false := beq_eq_false_iff_ne.mpr (fun h2 => ha h2.symm)
      simpa [List.lookup, hk] using ih (fun q hq => h q (by simp [hq]))

lemma process_row_category (cols : List String) (sheet_name : String) (row : Row)
    (h : ∀ c ∈ cols, rename_col c ≠ "category") :
    (process_row cols sheet_name row).lookup "category" = some sheet_name := by
  apply lookup_keys_ne
  intro p hp
  rw [List.mem_filterMap] at hp
  obtain ⟨c, hc, hmap⟩ := hp
  cases hrow : row.lookup c with
  | none => rw [hrow] at hmap; exact absurd hmap (by simp)
  | some v =>
      rw [hrow] at hmap
      simp only [Option.map_some', Option.some_inj] at hmap
      rw [← hmap]
      exact h c hc

lemma process_sheet_category (sheet_name : String) (df : DataFrame) :
    ∀ r ∈ (process_sheet sheet_name df).rows, r.lookup "category" = some sheet_name := by
  intro r hr
  rw [process_sheet, List.mem_map] at hr
  obtain ⟨row, _, rfl⟩ := hr
  exact process_row_category _ _ _
    (fun c hc => rename_ne_category c (available_cols_sub df c hc))

@[simp] lemma process_sheet_rows_length (sheet_name : String) (df : DataFrame) :
    (process_sheet sheet_name df).rows.length = df.rows.length := by
  simp [process_sheet]

lemma sheet_frames_all_ok (read_excel : String → Except String DataFrame)
    (dfs : String → DataFrame) (hread : ∀ s ∈ sheets, read_excel s = .ok (dfs s)) :
    sheet_frames read_excel =
      [process_sheet "硬件工单" (dfs "硬件工单"),
       process_sheet "系统工单" (dfs "系统工单"),
       process_sheet "服务工单" (dfs "服务工单"),
       process_sheet "网络工单" (dfs "网络工单")] := by
  have h1 := hread "硬件工单" (by simp [sheets])
  have h2 := hread "系统工单" (by simp [sheets])
  have h3 := hread "服务工单" (by simp [sheets])
  have h4 := hread "网络工单" (by simp [sheets])
  simp [sheet_frames, sheets, h1, h2, h3, h4]

/-! ## Claim theorems -/

/-- C1: for every workbook in which all four expected sheets are present and
populated, ingestion reports success, the new table is the old one followed
by the processed rows of the four sheets in order, the number of stored rows
grows by the sum of the input row counts across the four sheets, and every
row produced from a sheet carries that sheet's name as its category cell. -/
theorem C1_full_workbook_ingestion
    (read_excel : String → Except String DataFrame) (dfs : String → DataFrame)
    (db : List Row)
    (hread : ∀ s ∈ sheets, read_excel s = .ok (dfs s))
    (hpop : ∀ s ∈ sheets, (dfs s).rows ≠ []) :
    (load_and_store_data read_excel db).2 = .success ∧
    (load_and_store_data read_excel db).1 =
      db ++ (sheets.map (fun s => (process_sheet s (dfs s)).rows)).flatten ∧
    (load_and_store_data read_excel db).1.length =
      db.length + (sheets.map (fun s => (dfs s).rows.length)).sum ∧
    ∀ s ∈ sheets, ∀ r ∈ (process_sheet s (dfs s)).rows,
      r.lookup "category" = some s := by
  have hframes := sheet_frames_all_ok read_excel dfs hread
  refine ⟨?_, ?_, ?_, ?_⟩
  · simp [load_and_store_data, hframes]
  · simp [load_and_store_data, hframes, sheets]
  · simp [load_and_store_data, hframes, sheets]
  · intro s _ r hr
    exact process_sheet_category s (dfs s) r hr

/-- C1 witness: a concrete workbook with all four sheets present and one row
each, ingested into an empty table. -/
theorem C1_witness :
    (load_and_store_data re_w []).2 = .success ∧
    (load_and_store_data re_w []).1 =
      [] ++ (sheets.map (fun s => (process_sheet s (dfs_w s)).rows)).flatten ∧
    (load_and_store_data re_w []).1.length =
      ([] : List Row).length + (sheets.map (fun s => (dfs_w s).rows.length)).sum := by
  have h := C1_full_workbook_ingestion re_w dfs_w []
    (fun _ _ => rfl) (fun _ _ => List.cons_ne_nil _ _)
  exact ⟨h.1, h.2.1, h.2.2.1⟩

/-- C2: if every sheet read raises (zero sheets yield data), ingestion
reports failure and leaves the table untouched; if at least one sheet reads
successfully, ingestion reports success and the table becomes the old one
followed by exactly the processed rows of the successfully loaded sheets. -/
theorem C2_failure_policy (read_excel : String → Except String DataFrame)
    (db : List Row) :
    ((∀ s ∈ sheets, read_ok (read_excel s) = false) →
       load_and_store_data read_excel db = (db, .failure)) ∧
    ((∃ s ∈ sheets, read_ok (read_excel s) = true) →
       (load_and_store_data read_excel db).2 = .success ∧
       (load_and_store_data read_excel db).1 =
         db ++ ((sheet_frames read_excel).map DataFrame.rows).flatten) := by
  constructor
  · intro h
    have hnil : sheet_frames read_excel = [] := by
      rw [sheet_frames, List.filterMap_eq_nil_iff]
      intro s hs
      have := h s hs
      cases hre : read_excel s with
      | ok df => rw [hre] at this; simp [read_ok] at this
      | error e => simp [hre]
    simp [load_and_store_data, hnil]
  · rintro ⟨s, hs, hok⟩
    cases hre : read_excel s with
    | error e => rw [hre] at hok; simp [read_ok] at hok
    | ok df =>
        have hmem : process_sheet s df ∈ sheet_frames read_excel := by
          rw [sheet_frames, List.mem_filterMap]
          exact ⟨s, hs, by simp [hre]⟩
        have hne : (sheet_frames read_excel).isEmpty = false := by
          cases hsf : sheet_frames read_excel with
          | nil => rw [hsf] at hmem; exact absurd hmem (by simp)
          | cons a l => rfl
        simp [load_and_store_data, hne]

/-- C2 witness: a workbook whose every sheet read raises, and a workbook
with a readable sheet. -/
theorem C2_witness :
    load_and_store_data re_fail [] = ([], .failure) ∧
    ((load_and_store_data re_w []).2 = .success ∧
     (load_and_store_data re_w []).1 =
       [] ++ ((sheet_frames re_w).map DataFrame.rows).flatten) :=
  ⟨(C2_failure_policy re_fail []).1 (fun _ _ => rfl),
   (C2_failure_policy re_w []).2 ⟨"硬件工单", by decide, rfl⟩⟩

/-- C8: a workbook whose four expected sheets are all present and readable
but hold zero data rows ingests with a success report and stores zero new
rows. -/
theorem C8_readable_empty_sheets_success
    (read_excel : String → Except String DataFrame) (dfs : String → DataFrame)
    (db : List Row)
    (h : ∀ s ∈ sheets, read_excel s = .ok (dfs s) ∧ (dfs s).rows = []) :
    load_and_store_data read_excel db = (db, .success) := by
  have hframes := sheet_frames_all_ok read_excel dfs (fun s hs => (h s hs).1)
  have e1 := (h "硬件工单" (by simp [sheets])).2
  have e2 := (h "系统工单" (by simp [sheets])).2
  have e3 := (h "服务工单" (by simp [sheets])).2
  have e4 := (h "网络工单" (by simp [sheets])).2
  simp [load_and_store_data, hframes, process_sheet, e1, e2, e3, e4]

/-- C8 witness: every sheet present with zero rows, ingested into an empty
table. -/
theorem C8_witness : load_and_store_data re_empty [] = ([], .success) :=
  C8_readable_empty_sheets_success re_empty (fun _ => df_empty) []
    (fun _ _ => ⟨rfl, rfl⟩)

/-- C9: every row of the table after an ingestion carries one of the four
expected sheet names as its category, provided every row already stored did;
in particular every row appended by the ingestion does, whatever the columns
of the source sheets were. -/
theorem C9_category_invariant (read_excel : String → Except String DataFrame)
    (db : List Row) (hdb : ∀ r ∈ db, category_inv r) :
    ∀ r ∈ (load_and_store_data read_excel db).1, category_inv r := by
  intro r hr
  by_cases hE : (sheet_frames read_excel).isEmpty = true
  · rw [load_and_store_data] at hr
    simp only [hE, if_true] at hr
    exact hdb r hr
  · rw [load_and_store_data] at hr
    simp only [hE, if_false, Bool.false_eq_true] at hr
    rw [List.mem_append] at hr
    rcases hr with hr | hr
    · exact hdb r hr
    · rw [List.mem_flatten] at hr
      obtain ⟨l, hl, hrl⟩ := hr
      rw [List.mem_map] at hl
      obtain ⟨fr, hfr, rfl⟩ := hl
      rw [sheet_frames, List.mem_filterMap] at hfr
      obtain ⟨s, hs, hfs⟩ := hfr
      cases hre : read_excel s with
      | error e => rw [hre] at hfs; exact absurd hfs (by simp)
      | ok df =>
          rw [hre] at hfs
          simp only [Option.some_inj] at hfs
          subst hfs
          exact ⟨s, hs, process_sheet_category s df r hrl⟩

/-- C9 witness: a concrete row stored by a concrete ingestion into an empty
table satisfies the invariant. -/
theorem C9_witness : category_inv [("title", some "t"), ("category", some "硬件工单")] :=
  C9_category_invariant re_w [] (by simp)
    [("title", some "t"), ("category", some "硬件工单")] (by decide)

lemma isEmpty_false_of_ne_nil {α : Type} (l : List α) (h : l ≠ []) :
    l.isEmpty = false := by
  cases l with
  | nil => exact absurd rfl h
  | cons a t => rfl

/-- C3: requesting either analysis while the stored table is empty yields
only the error dialog — no dashboard and no result window — and the table is
left unchanged, whatever the external vectorizer, clusterer, JSON parser and
API are. -/
theorem C3_empty_table_short_circuit {M : Type}
    (vectorize : List String → Option M) (nrows : M → Nat) (kmeans : M → List Nat)
    (json_loads : String → Option PyJson) (api_call : String → Except String String) :
    analyze_data vectorize nrows kmeans [] =
      ([], .errorDialog "No data available for analysis.") ∧
    analyze_with_openai json_loads api_call [] =
      ([], .errorDialog "No data available for OpenAI analysis.") :=
  ⟨rfl, rfl⟩

/-- C4: on a non-empty table, when TF-IDF vectorization of the combined
record texts raises, local analysis still produces the dashboard: the
per-category counts and total are computed, and the cluster panel reports
that clustering was skipped. -/
theorem C4_vectorization_failure_skips_clustering {M : Type}
    (vectorize : List String → Option M) (nrows : M → Nat) (kmeans : M → List Nat)
    (db : List Row) (hdb : db ≠ [])
    (hvec : vectorize (db.map combined_text) = none) :
    analyze_data vectorize nrows kmeans db =
      (db, .dashboard ⟨category_counts db, db.length, .skipped⟩) := by
  simp [analyze_data, isEmpty_false_of_ne_nil db hdb, hvec]

/-- C4 witness: a one-row table with a vectorizer that always raises. -/
theorem C4_witness :
    analyze_data (fun _ => (none : Option Unit)) (fun _ => 0) (fun _ => []) db_w =
      (db_w, .dashboard ⟨category_counts db_w, db_w.length, .skipped⟩) :=
  C4_vectorization_failure_skips_clustering _ _ _ db_w (by decide) rfl

/-- C7 counterexample: the text built for vectorization from a record with
title "a" and description "b" is "a b", not the plain concatenation "ab"
that the claim states. -/
theorem C7_counterexample :
    combined_text [("title", some "a"), ("description", some "b")] ≠
      combined_text_claim [("title", some "a"), ("description", some "b")] := by
  decide

/-- C7 amended: for every record, the text used for vectorization is the
title, a single space separator, and the description, with a null title or
null description treated as the empty string. -/
theorem C7_amended_combined_text (r : Row) :
    combined_text r = combined_text_amended r := rfl

/-- C5: on a non-empty table, a remote reply on which `json.loads` raises
degrades gracefully: the category mapping is the empty dict, no chart is
rendered, and the raw reply text is the summary verbatim. -/
theorem C5_unparsable_reply_degrades (json_loads : String → Option PyJson)
    (api_call : String → Except String String) (reply : String)
    (db : List Row) (hdb : db ≠ [])
    (hapi : api_call (openai_prompt db) = .ok reply)
    (hparse : json_loads reply = none) :
    analyze_with_openai json_loads api_call db =
      (db, .window ⟨.obj [], none, .str reply⟩) := by
  simp [analyze_with_openai, isEmpty_false_of_ne_nil db hdb, hapi,
        parse_analysis, hparse, py_truthy]

/-- C5 witness: a one-row table, an API call replying "not json", and a
parser that raises on everything. -/
theorem C5_witness :
    analyze_with_openai jl_none api_ok_w db_w =
      (db_w, .window ⟨.obj [], none, .str "not json"⟩) :=
  C5_unparsable_reply_degrades jl_none api_ok_w "not json" db_w (by decide) rfl rfl

lemma json_can_start_error_string (e : String) :
    json_can_start ("Error in OpenAI API call: " ++ e) = false := by
  have hdata : ("Error in OpenAI API call: " ++ e).data =
      'E' :: ("rror in OpenAI API call: ".data ++ e.data) := by
    cases e with
    | mk l => rfl
  simp only [json_can_start, hdata, List.dropWhile_cons]
  have hws : json_ws 'E' = false := rfl
  simp [hws, json_lead]

/-- C6: on a non-empty table, when the API call raises, the window shows the
human-readable error string as the summary, the category mapping is empty
and the chart is omitted — for every JSON parser that only accepts texts
that can begin a JSON document. -/
theorem C6_api_failure_error_summary (json_loads : String → Option PyJson)
    (api_call : String → Except String String) (err : String)
    (db : List Row) (hdb : db ≠ [])
    (hapi : api_call (openai_prompt db) = .error err)
    (hjson : ∀ s j, json_loads s = some j → json_can_start s = true) :
    analyze_with_openai json_loads api_call db =
      (db, .window ⟨.obj [], none, .str ("Error in OpenAI API call: " ++ err)⟩) := by
  have hparse : json_loads ("Error in OpenAI API call: " ++ err) = none := by
    cases hj : json_loads ("Error in OpenAI API call: " ++ err) with
    | none => rfl
    | some j =>
        have hstart := hjson _ _ hj
        rw [json_can_start_error_string] at hstart
        exact absurd hstart (by simp)
  simp [analyze_with_openai, isEmpty_false_of_ne_nil db hdb, hapi,
        parse_analysis, hparse, py_truthy]

/-- C6 witness: a one-row table with an API call that raises "boom" and a
parser that accepts nothing. -/
theorem C6_witness :
    analyze_with_openai jl_none api_err_w db_w =
      (db_w, .window ⟨.obj [], none, .str ("Error in OpenAI API call: " ++ "boom")⟩) :=
  C6_api_failure_error_summary jl_none api_err_w "boom" db_w (by decide) rfl
    (fun _ j h => Option.noConfusion h)

/-- C10: on a non-empty table, when the reply parses as a JSON object, a
missing "summary" key makes the displayed summary the fixed string
"No summary provided.", and a missing "categories" key makes the category
mapping the empty dict and omits the chart. -/
theorem C10_missing_keys_defaults (json_loads : String → Option PyJson)
    (api_call : String → Except String String) (db : List Row) (reply : String)
    (kvs : List (String × PyJson)) (hdb : db ≠ [])
    (hapi : api_call (openai_prompt db) = .ok reply)
    (hparse : json_loads reply = some (.obj kvs)) :
    (kvs.lookup "summary" = none →
       ((analyze_with_openai json_loads api_call db).2).summary_of =
         some (.str "No summary provided.")) ∧
    (kvs.lookup "categories" = none →
       ((analyze_with_openai json_loads api_call db).2).categories_of =
         some (.obj []) ∧
       ((analyze_with_openai json_loads api_call db).2).chart_of = some none) := by
  have he := isEmpty_false_of_ne_nil db hdb
  constructor
  · intro hs
    simp [analyze_with_openai, he, hapi, parse_analysis, hparse, hs,
          RemoteResult.summary_of]
  · intro hc
    simp [analyze_with_openai, he, hapi, parse_analysis, hparse, hc, py_truthy,
          RemoteResult.categories_of, RemoteResult.chart_of]

/-- C10 witness: a one-row table and a reply parsing as the empty JSON
object, which misses both keys. -/
theorem C10_witness :
    (((analyze_with_openai jl_obj api_ok_w db_w).2).summary_of =
       some (.str "No summary provided.")) ∧
    (((analyze_with_openai jl_obj api_ok_w db_w).2).categories_of =
       some (.obj []) ∧
     ((analyze_with_openai jl_obj api_ok_w db_w).2).chart_of = some none) := by
  have h := C10_missing_keys_defaults jl_obj api_ok_w db_w "not json" []
    (by decide) rfl rfl
  exact ⟨h.1 rfl, h.2 rfl⟩

end TicketAnalysis
